import Mathlib

set_option maxRecDepth 100000

/-!
Shallow embedding of the core of `src/quran_api_server.py` (a Flask REST
server over a read-only SQLite Quran corpus), together with theorems
checking the natural-language specification against it.

Conventions of the embedding:
* SQLite tables become lists of rows (structures); `fetchone` on a
  `WHERE`-filtered query becomes `(List.filter …).head?`.
* SQLite `LIKE '%q%'` (ASCII case-insensitive substring match) becomes
  `likeMatch`.
* SQLite `LIMIT n` with a parameter that may be negative (negative means
  "no limit" in SQLite) becomes `applyLimit`.
* Python `datetime` subtraction followed by `.seconds` (the seconds
  component of the timedelta, which wraps at one day — NOT
  `total_seconds()`) becomes `tdSeconds`, on timestamps measured in
  whole seconds with `now ≥ t` (the only case the server meets:
  timestamps are appended in call order).
* Fallible handlers return `Except ErrCode _` where `ErrCode` is the
  server's `error_code` tag.
-/

namespace QuranAPI

/-- Configuration constants from the top of `quran_api_server.py`. -/
def RATE_LIMIT_REQUESTS : Nat := 100

/-- `RATE_LIMIT_WINDOW = 3600  # 1 saat`. -/
def RATE_LIMIT_WINDOW : Nat := 3600

/-- `(now - t).seconds` in Python: the seconds component of the
timedelta, i.e. the total difference in seconds reduced modulo one day
(86400 s).  This is the faithful embedding of line 85 of the source,
for `now ≥ t` and whole-second timestamps. -/
def tdSeconds (now t : Nat) : Nat := (now - t) % 86400

/-- `check_rate_limit` (lines 75–92), for a single client: Python keeps
a per-ip list of accepted timestamps; one call filters the list by
`(now - t).seconds < RATE_LIMIT_WINDOW`, rejects if the kept count is
`≥ RATE_LIMIT_REQUESTS`, and otherwise appends `now` and accepts.
Returns (admitted?, new per-client list). -/
def check_rate_limit (times : List Nat) (now : Nat) : Bool × List Nat :=
  let kept := times.filter (fun t => tdSeconds now t < RATE_LIMIT_WINDOW)
  if RATE_LIMIT_REQUESTS ≤ kept.length then
    (false, kept)
  else
    (true, kept ++ [now])

/-- Run a sequence of calls (their timestamps, in order) against the rate
limiter starting from a given per-client record; returns the list of
admission results and the final record. -/
def admitSeq (times : List Nat) (state : List Nat) : List Bool × List Nat :=
  match times with
  | [] => ([], state)
  | now :: rest =>
    let r := check_rate_limit state now
    let rec_rest := admitSeq rest r.2
    (r.1 :: rec_rest.1, rec_rest.2)

deriving instance DecidableEq for Except

/-- The `error_code` tags the server attaches to failures. -/
inductive ErrCode
  | INVALID_INPUT
  | NOT_FOUND
  | DB_ERROR
  | RATE_LIMIT_EXCEEDED
  | SERVER_ERROR
  deriving DecidableEq, Repr

/-- A row of the `tanzil_texts` table (the primary verse table). -/
structure VerseRow where
  sura : Nat
  aya : Nat
  text_simple : String
  text_uthmani : String
  deriving DecidableEq, Repr

/-- A row of the `sura_info` table. -/
structure SuraInfoRow where
  sura_number : Nat
  sura_name_turkish : String
  verse_count : Nat
  deriving DecidableEq, Repr

/-- A row of the `enhanced_translations` table. -/
structure TranslationRow where
  sura : Nat
  verse : Nat
  translator_id : String
  text : String
  deriving DecidableEq, Repr

/-- A row of the `diyanet_meal` table. -/
structure DiyanetRow where
  surah : Nat
  verse : Nat
  meal : String
  deriving DecidableEq, Repr

/-- A row of the `transliteration` table. -/
structure TranslitRow where
  surah : Nat
  verse : Nat
  transliteration : String
  deriving DecidableEq, Repr

/-- A row of the `morphology_segments` table. -/
structure MorphRow where
  sura : Nat
  verse : Nat
  word_number : Nat
  word_arabic : String
  segment_arabic : String
  segment_transliteration : String
  pos_tag : String
  pos_description : String
  root : String
  lemma_txt : String
  features : String
  deriving DecidableEq, Repr

/-- The SQLite database, as lists of rows in table (scan) order. -/
structure DB where
  tanzil_texts : List VerseRow
  sura_info : List SuraInfoRow
  enhanced_translations : List TranslationRow
  diyanet_meal : List DiyanetRow
  transliteration : List TranslitRow
  morphology_segments : List MorphRow
  deriving Repr

/-- ASCII lower-casing of one character, as SQLite `LIKE` folds case
(only A–Z fold; Arabic and other non-ASCII characters compare exactly). -/
def asciiLowerChar (c : Char) : Char :=
  if 65 ≤ c.toNat && c.toNat ≤ 90 then Char.ofNat (c.toNat + 32) else c

/-- `listStartsWith p t`: `p` is a prefix of `t`. -/
def listStartsWith : List Char → List Char → Bool
  | [], _ => true
  | _ :: _, [] => false
  | p :: ps, c :: cs => p == c && listStartsWith ps cs

/-- `listContainsSub p t`: `p` occurs contiguously inside `t`. -/
def listContainsSub : List Char → List Char → Bool
  | pat, [] => pat.isEmpty
  | pat, c :: rest => listStartsWith pat (c :: rest) || listContainsSub pat rest

/-- SQLite `text LIKE '%' || pat || '%'`: case-insensitive (ASCII)
substring containment. -/
def likeMatch (text pat : String) : Bool :=
  listContainsSub (pat.data.map asciiLowerChar) (text.data.map asciiLowerChar)

/-- Python `str.strip()`: drop leading and trailing whitespace
characters (the queries only meet ASCII whitespace). -/
def pyStrip (s : String) : String :=
  ⟨((s.data.dropWhile Char.isWhitespace).reverse.dropWhile Char.isWhitespace).reverse⟩

/-- SQLite `LIMIT n` applied to a result stream: a negative `n` means
"no limit"; a non-negative `n` truncates to `n` rows. -/
def applyLimit (limit : Int) (xs : List α) : List α :=
  if limit < 0 then xs else xs.take limit.toNat

/-- `SELECT DISTINCT` over a result stream: emit each row the first
time it is seen, in scan order, tracking the already-emitted rows. -/
def dedupFirstAux [DecidableEq α] (seen : List α) : List α → List α
  | [] => []
  | x :: xs => if x ∈ seen then dedupFirstAux seen xs else x :: dedupFirstAux (x :: seen) xs

/-- `SELECT DISTINCT` over a result stream: keep the first occurrence of
each row, in scan order. -/
def dedupFirst [DecidableEq α] (l : List α) : List α := dedupFirstAux [] l

/-- The three search modes of `/api/search` (`type=word|root|lemma`). -/
inductive SearchMode
  | word
  | root
  | lemmaMode
  deriving DecidableEq, Repr

/-- One entry of the `results` list built by `search`. -/
inductive SearchItem
  | verseHit (sura aya : Nat) (text : String)
  | morphHit (sura verse : Nat) (word root lemma_txt : String)
  | lemmaHit (sura verse : Nat) (segment lemma_txt : String)
  deriving DecidableEq, Repr

/-- `search` (lines 293–373).  `limitReq` is the caller's `limit`
parameter; the code computes `limit = min(limit, 500)` first, then
rejects queries shorter than 2 characters after `strip()`, then runs
one SQL query according to the mode:
* `root`: `SELECT DISTINCT sura, verse, word_arabic, root, lemma FROM
  morphology_segments WHERE root LIKE '%q%' LIMIT limit`;
* `lemma`: `SELECT DISTINCT sura, verse, segment_arabic, lemma FROM
  morphology_segments WHERE lemma LIKE '%q%' LIMIT limit`;
* `word` (default): `SELECT sura, aya, text_simple FROM tanzil_texts
  WHERE text_simple LIKE '%q%' LIMIT limit`. -/
def search (db : DB) (q : String) (mode : SearchMode) (limitReq : Int) :
    Except ErrCode (List SearchItem) :=
  let limit := min limitReq 500
  let query := pyStrip q
  if query.length < 2 then
    .error .INVALID_INPUT
  else
    match mode with
    | .root =>
      .ok (applyLimit limit (dedupFirst
        ((db.morphology_segments.filter (fun r => likeMatch r.root query)).map
          (fun r => SearchItem.morphHit r.sura r.verse r.word_arabic r.root r.lemma_txt))))
    | .lemmaMode =>
      .ok (applyLimit limit (dedupFirst
        ((db.morphology_segments.filter (fun r => likeMatch r.lemma_txt query)).map
          (fun r => SearchItem.lemmaHit r.sura r.verse r.segment_arabic r.lemma_txt))))
    | .word =>
      .ok (applyLimit limit
        ((db.tanzil_texts.filter (fun r => likeMatch r.text_simple query)).map
          (fun r => SearchItem.verseHit r.sura r.aya r.text_simple)))

/-- Decimal digit `d` (0–9) as a character, as Python's `str` renders it. -/
def digitChar (d : Nat) : Char := Char.ofNat (48 + d)

/-- The decimal rendering of a natural number, as Python's f-string
`f"{n}"` produces it. -/
def natToChars (n : Nat) : List Char :=
  if n = 0 then ['0'] else ((Nat.digits 10 n).reverse.map digitChar)

/-- `f"{surah}:{verse}"` — the `reference` string of a verse record. -/
def serializeRef (s v : Nat) : List Char := natToChars s ++ ':' :: natToChars v

/-- Inverse of `digitChar` on decimal digits. -/
def charToDigit (c : Char) : Nat := c.toNat - 48

/-- Read a decimal digit string back into a natural number. -/
def charsToNat (cs : List Char) : Nat := Nat.ofDigits 10 ((cs.map charToDigit).reverse)

/-- Split a character list at its first `':'`. -/
def splitColon : List Char → Option (List Char × List Char)
  | [] => none
  | c :: cs =>
    if c = ':' then some ([], cs)
    else (splitColon cs).map (fun p => (c :: p.1, p.2))

/-- Parse a `"sura:verse"` reference back into its pair. -/
def parseRef (cs : List Char) : Option (Nat × Nat) :=
  (splitColon cs).map (fun p => (charsToNat p.1, charsToNat p.2))

/-- The record built by `get_verse`.  `translations` keeps the dict's
insertion order as an association list (`diyanet` appended last when
present); `morphology` is the segment count when positive. -/
structure VerseRecord where
  reference : List Char
  sura : Nat
  verse : Nat
  arabic_simple : String
  arabic_uthmani : String
  translations : List (String × String)
  transliteration : Option String
  morphology : Option Nat
  deriving DecidableEq, Repr

/-- `get_verse` (lines 154–236): `fetchone` on `tanzil_texts` decides
existence; `NOT_FOUND` when no row matches, otherwise the enriched
record is assembled from the secondary tables. -/
def get_verse (db : DB) (surah verse : Nat) : Except ErrCode VerseRecord :=
  match (db.tanzil_texts.filter (fun r => r.sura == surah && r.aya == verse)).head? with
  | none => .error .NOT_FOUND
  | some verse_data =>
    let translations0 :=
      (db.enhanced_translations.filter (fun r => r.sura == surah && r.verse == verse)).map
        (fun r => (r.translator_id, r.text))
    let translations1 :=
      match (db.diyanet_meal.filter (fun r => r.surah == surah && r.verse == verse)).head? with
      | some d => translations0 ++ [("diyanet", d.meal)]
      | none => translations0
    let translit :=
      ((db.transliteration.filter (fun r => r.surah == surah && r.verse == verse)).head?).map
        (fun r => r.transliteration)
    let segment_count :=
      (db.morphology_segments.filter (fun r => r.sura == surah && r.verse == verse)).length
    .ok {
      reference := serializeRef surah verse
      sura := verse_data.sura
      verse := verse_data.aya
      arabic_simple := verse_data.text_simple
      arabic_uthmani := verse_data.text_uthmani
      translations := translations1
      transliteration := translit
      morphology := if 0 < segment_count then some segment_count else none
    }

/-- One verse entry of a `get_sura` response. -/
structure SuraVerse where
  verse_number : Nat
  text : String
  reference : List Char
  deriving DecidableEq, Repr

/-- The record built by `get_sura`. -/
structure SuraResult where
  surah : Nat
  name : String
  verse_count : Nat
  verses : List SuraVerse
  deriving DecidableEq, Repr

/-- `get_sura` (lines 238–287): `fetchone` on `sura_info` decides
existence (`NOT_FOUND` when absent — the handler performs no 1..114
range validation of its own); the verses are read `ORDER BY aya`. -/
def get_sura (db : DB) (surah : Nat) : Except ErrCode SuraResult :=
  match (db.sura_info.filter (fun r => r.sura_number == surah)).head? with
  | none => .error .NOT_FOUND
  | some si =>
    let rows := List.insertionSort (fun a b => a.aya ≤ b.aya)
      (db.tanzil_texts.filter (fun r => r.sura == surah))
    .ok {
      surah := surah
      name := si.sura_name_turkish
      verse_count := si.verse_count
      verses := rows.map (fun r =>
        { verse_number := r.aya, text := r.text_simple, reference := serializeRef r.sura r.aya })
    }

/-- One segment of a `get_morphology` response. -/
structure MorphSegOut where
  word_number : Nat
  segment : String
  transliteration : String
  pos_tag : String
  pos_description : String
  root : String
  lemma_txt : String
  features : String
  deriving DecidableEq, Repr

/-- `get_morphology` (lines 492–543): reads `morphology_segments`
`WHERE sura = ? AND verse = ? ORDER BY word_number` and fails
`NOT_FOUND` iff that query returns no row.  It never touches
`tanzil_texts`. -/
def get_morphology (db : DB) (surah verse : Nat) : Except ErrCode (List MorphSegOut) :=
  let rows := List.insertionSort (fun a b => a.word_number ≤ b.word_number)
    (db.morphology_segments.filter (fun r => r.sura == surah && r.verse == verse))
  let segments := rows.map (fun r =>
    { word_number := r.word_number
      segment := r.segment_arabic
      transliteration := r.segment_transliteration
      pos_tag := r.pos_tag
      pos_description := r.pos_description
      root := r.root
      lemma_txt := r.lemma_txt
      features := r.features : MorphSegOut })
  if segments.isEmpty then .error .NOT_FOUND else .ok segments

/-! ## Supporting lemmas -/

theorem applyLimit_subset (limit : Int) (xs : List α) : applyLimit limit xs ⊆ xs := by
  unfold applyLimit
  split
  · exact fun a h => h
  · exact List.take_subset _ _

theorem dedupFirstAux_subset [DecidableEq α] (l : List α) :
    ∀ seen, dedupFirstAux seen l ⊆ l := by
  induction l with
  | nil =>
    intro seen a h
    simp [dedupFirstAux] at h
  | cons x xs ih =>
    intro seen a h
    rw [dedupFirstAux] at h
    by_cases hx : x ∈ seen
    · rw [if_pos hx] at h
      exact List.mem_cons_of_mem _ (ih seen h)
    · rw [if_neg hx] at h
      rcases List.mem_cons.mp h with h1 | h1
      · exact h1 ▸ List.mem_cons_self _ _
      · exact List.mem_cons_of_mem _ (ih _ h1)

theorem dedupFirst_subset [DecidableEq α] (l : List α) : dedupFirst l ⊆ l :=
  dedupFirstAux_subset l []

theorem charToDigit_digitChar : ∀ d, d < 10 → charToDigit (digitChar d) = d := by decide

theorem digitChar_ne_colon : ∀ d, d < 10 → digitChar d ≠ ':' := by decide

theorem colon_not_mem_natToChars (n : Nat) : ':' ∉ natToChars n := by
  unfold natToChars
  split
  · decide
  · intro hmem
    rcases List.mem_map.mp hmem with ⟨d, hd, hdc⟩
    have hd10 : d < 10 :=
      Nat.digits_lt_base (by norm_num) (List.mem_reverse.mp hd)
    exact digitChar_ne_colon d hd10 hdc

theorem splitColon_append (a b : List Char) (ha : ':' ∉ a) :
    splitColon (a ++ ':' :: b) = some (a, b) := by
  induction a with
  | nil => simp [splitColon]
  | cons c cs ih =>
    have hc : c ≠ ':' := fun h => ha (h ▸ List.mem_cons_self _ _)
    have hcs : ':' ∉ cs := fun h => ha (List.mem_cons_of_mem _ h)
    simp [splitColon, hc, ih hcs]

theorem charsToNat_natToChars (n : Nat) : charsToNat (natToChars n) = n := by
  unfold charsToNat natToChars
  split
  · subst n
    decide
  · have hmap :
        (((Nat.digits 10 n).reverse.map digitChar).map charToDigit) =
          (Nat.digits 10 n).reverse := by
      rw [List.map_map]
      have : ∀ d ∈ (Nat.digits 10 n).reverse, (charToDigit ∘ digitChar) d = id d := by
        intro d hd
        exact charToDigit_digitChar d
          (Nat.digits_lt_base (by norm_num) (List.mem_reverse.mp hd))
      rw [List.map_congr_left this, List.map_id]
    rw [hmap, List.reverse_reverse, Nat.ofDigits_digits]

theorem parseRef_serializeRef (s v : Nat) : parseRef (serializeRef s v) = some (s, v) := by
  unfold parseRef serializeRef
  rw [splitColon_append _ _ (colon_not_mem_natToChars s)]
  simp [charsToNat_natToChars]

/-! ## Concrete corpora used to instantiate and to refute claims -/

/-- A one-verse corpus whose verse 1:1 has a Turkish-style translation
containing the word "Merciful" while the Arabic text does not. -/
def corpusA : DB where
  tanzil_texts := [⟨1, 1, "بسم الله الرحمن الرحيم", "بِسْمِ اللَّهِ"⟩]
  sura_info := [⟨1, "Fatiha", 7⟩]
  enhanced_translations := [⟨1, 1, "tr1", "In the name of Allah, the most Merciful"⟩]
  diyanet_meal := []
  transliteration := []
  morphology_segments := []

/-- A corpus whose only morphology segment has root "ktbx", a proper
superstring of the root "ktb". -/
def corpusB : DB where
  tanzil_texts := []
  sura_info := []
  enhanced_translations := []
  diyanet_meal := []
  transliteration := []
  morphology_segments := [⟨2, 30, 1, "katib", "ka", "katib", "N", "Noun", "ktbx", "ktblem", ""⟩]

/-- A corpus with a morphology row for 5:5 but no 5:5 verse in the
primary table. -/
def corpusC : DB where
  tanzil_texts := []
  sura_info := []
  enhanced_translations := []
  diyanet_meal := []
  transliteration := []
  morphology_segments := [⟨5, 5, 1, "w", "s", "t", "N", "Noun", "rt", "lm", ""⟩]

/-- A corpus with `n` identical verse rows whose text contains "ab":
used to exhibit unbounded result sets under a negative limit. -/
def corpusRep (n : Nat) : DB where
  tanzil_texts := List.replicate n ⟨1, 1, "ab", "ab"⟩
  sura_info := []
  enhanced_translations := []
  diyanet_meal := []
  transliteration := []
  morphology_segments := []

/-! ## Shared unfolding lemmas for `search` -/

theorem mem_of_head?_eq (l : List α) (a : α) (h : l.head? = some a) : a ∈ l := by
  cases l with
  | nil => cases h
  | cons x xs =>
    simp only [List.head?] at h
    injection h with h'
    subst h'
    exact List.mem_cons_self _ _

theorem search_word_eq (db : DB) (q : String) (lim : Int)
    (hq : 2 ≤ (pyStrip q).length) :
    search db q SearchMode.word lim =
      .ok (applyLimit (min lim 500)
        ((db.tanzil_texts.filter (fun r => likeMatch r.text_simple (pyStrip q))).map
          (fun r => SearchItem.verseHit r.sura r.aya r.text_simple))) := by
  simp only [search]
  rw [if_neg (Nat.not_lt.mpr hq)]

theorem search_root_eq (db : DB) (q : String) (lim : Int)
    (hq : 2 ≤ (pyStrip q).length) :
    search db q SearchMode.root lim =
      .ok (applyLimit (min lim 500) (dedupFirst
        ((db.morphology_segments.filter (fun r => likeMatch r.root (pyStrip q))).map
          (fun r => SearchItem.morphHit r.sura r.verse r.word_arabic r.root r.lemma_txt)))) := by
  simp only [search]
  rw [if_neg (Nat.not_lt.mpr hq)]

theorem search_lemmaMode_eq (db : DB) (q : String) (lim : Int)
    (hq : 2 ≤ (pyStrip q).length) :
    search db q SearchMode.lemmaMode lim =
      .ok (applyLimit (min lim 500) (dedupFirst
        ((db.morphology_segments.filter (fun r => likeMatch r.lemma_txt (pyStrip q))).map
          (fun r => SearchItem.lemmaHit r.sura r.verse r.segment_arabic r.lemma_txt)))) := by
  simp only [search]
  rw [if_neg (Nat.not_lt.mpr hq)]

theorem length_applyLimit_le (n : Int) (hn : 0 ≤ n) (xs : List α) :
    (applyLimit n xs).length ≤ n.toNat := by
  unfold applyLimit
  rw [if_neg (not_lt.mpr hn)]
  exact List.length_take_le _ _

/-! ## Claim theorems -/

/-- C1: the spec claims that with window 3600 s and max 100, 100 calls at
strictly increasing timestamps inside one window are all admitted, the
101st inside the window is rejected, and any later call whose previous
accepted timestamps are all older than `now - window` is admitted
again.  The first two clauses hold, but the third fails on the code:
with timestamps 0..99 and `now = 86499` every recorded timestamp is
86400..86499 seconds old (far more than one window), yet Python's
`(now - t).seconds` wraps modulo one day to 0..99 < 3600, so all 100
stale entries are kept and the call is rejected.  This theorem
evaluates the code at that failing input. -/
theorem C1_sliding_window_code_eval :
    (admitSeq (List.range 100) []).1 = List.replicate 100 true
    ∧ (admitSeq (List.range 100) []).2 = List.range 100
    ∧ (check_rate_limit (List.range 100) 100).1 = false
    ∧ (check_rate_limit (List.range 100) 86499).1 = false := by decide

/-- C8: the spec claims `admit` drops timestamps older than
`now - window` and then accepts (appending `now`) when fewer than
`maxRequests` remain.  At record 0..99 and `now = 86499` every
timestamp is older than `now - window = 82899`, so the claimed
algorithm would drop them all and accept; the code instead keeps all
100 (their age modulo one day via `.seconds` is 0..99 < 3600) and
rejects without appending.  This theorem evaluates the code at that
failing input and records that every kept timestamp is in fact more
than one window old. -/
theorem C8_reject_code_eval :
    check_rate_limit (List.range 100) 86499 = (false, List.range 100)
    ∧ (∀ t ∈ List.range 100, 3600 < 86499 - t ∧ tdSeconds 86499 t < 3600) := by decide

/-- C2 counterexample: a corpus whose verse 1:1 has a translation
containing "Merciful" while the Arabic text does not.  The claim says
word-mode search first collects translation matches (tagged
`match_type=translation`), so it would return at least that hit; the
code returns the empty list because word mode only scans the Arabic
`text_simple` column. -/
theorem C2_no_translation_pass_counterexample :
    (corpusA.enhanced_translations.map (fun r => likeMatch r.text "Merciful")) = [true]
    ∧ search corpusA "Merciful" SearchMode.word 50 = .ok [] := by decide

/-- C2 amended: word mode is a single SQLite `LIKE` substring scan
(ASCII case-insensitive) over the Arabic `tanzil_texts.text_simple`
column, truncated to the clamped limit; every returned item is a verse
hit coming from a matching primary-table row — translations are never
scanned and no translation-tagged item can occur. -/
theorem C2_word_mode_single_scan (db : DB) (q : String) (lim : Int)
    (hq : 2 ≤ (pyStrip q).length) :
    search db q SearchMode.word lim =
      .ok (applyLimit (min lim 500)
        ((db.tanzil_texts.filter (fun r => likeMatch r.text_simple (pyStrip q))).map
          (fun r => SearchItem.verseHit r.sura r.aya r.text_simple)))
    ∧ ∀ res, search db q SearchMode.word lim = .ok res →
        ∀ it ∈ res, ∃ r ∈ db.tanzil_texts,
          likeMatch r.text_simple (pyStrip q) = true
          ∧ it = SearchItem.verseHit r.sura r.aya r.text_simple := by
  refine ⟨search_word_eq db q lim hq, ?_⟩
  intro res hres it hit
  rw [search_word_eq db q lim hq] at hres
  injection hres with hres
  subst hres
  have hit2 := applyLimit_subset _ _ hit
  rcases List.mem_map.mp hit2 with ⟨r, hr, hform⟩
  rcases List.mem_filter.mp hr with ⟨hrmem, hrp⟩
  exact ⟨r, hrmem, hrp, hform.symm⟩

/-- C2 witness: the amended theorem applied to the concrete corpus
`corpusA` and the Arabic query "الله", fully evaluated. -/
theorem C2_word_mode_single_scan_witness :
    search corpusA "الله" SearchMode.word 50 =
      .ok [SearchItem.verseHit 1 1 "بسم الله الرحمن الرحيم"] :=
  ((C2_word_mode_single_scan corpusA "الله" 50 (by decide)).1).trans (by decide)

/-- C3 counterexample: the only morphology segment of `corpusB` has
root "ktbx".  The claim says root mode matches the query exactly
against root keys and that every returned entry carries a root equal to
the queried root, so the query "ktb" would return nothing (or entries
carrying "ktb"); the code instead matches by `LIKE` substring and
returns the segment with its own stored root "ktbx" ≠ "ktb". -/
theorem C3_root_substring_counterexample :
    search corpusB "ktb" SearchMode.root 10 =
      .ok [SearchItem.morphHit 2 30 "katib" "ktbx" "ktblem"]
    ∧ ("ktbx" : String) ≠ "ktb" := by decide

/-- C3 amended: root mode is a `SELECT DISTINCT … WHERE root LIKE
'%q%'` scan of `morphology_segments`: substring (not exact) match on
the root column, first-occurrence deduplication of the selected tuples
(duplicates are NOT preserved), truncation to the clamped limit, and
every returned entry carries the segment's own stored root — a
superstring of the query, not a re-annotation with the queried root. -/
theorem C3_root_mode_like_scan (db : DB) (q : String) (lim : Int)
    (hq : 2 ≤ (pyStrip q).length) :
    search db q SearchMode.root lim =
      .ok (applyLimit (min lim 500) (dedupFirst
        ((db.morphology_segments.filter (fun r => likeMatch r.root (pyStrip q))).map
          (fun r => SearchItem.morphHit r.sura r.verse r.word_arabic r.root r.lemma_txt))))
    ∧ ∀ res, search db q SearchMode.root lim = .ok res →
        ∀ it ∈ res, ∃ r ∈ db.morphology_segments,
          likeMatch r.root (pyStrip q) = true
          ∧ it = SearchItem.morphHit r.sura r.verse r.word_arabic r.root r.lemma_txt := by
  refine ⟨search_root_eq db q lim hq, ?_⟩
  intro res hres it hit
  rw [search_root_eq db q lim hq] at hres
  injection hres with hres
  subst hres
  have hit2 := dedupFirst_subset _ (applyLimit_subset _ _ hit)
  rcases List.mem_map.mp hit2 with ⟨r, hr, hform⟩
  rcases List.mem_filter.mp hr with ⟨hrmem, hrp⟩
  exact ⟨r, hrmem, hrp, hform.symm⟩

/-- C3 witness: the amended theorem applied to the concrete corpus
`corpusB` and the query "ktbx", fully evaluated. -/
theorem C3_root_mode_like_scan_witness :
    search corpusB "ktbx" SearchMode.root 10 =
      .ok [SearchItem.morphHit 2 30 "katib" "ktbx" "ktblem"] :=
  ((C3_root_mode_like_scan corpusB "ktbx" 10 (by decide)).1).trans (by decide)

/-- C4 counterexample: 500 is outside 1..114, and `corpusA` has a sura
table covering only sura 1.  The claim says `getSurah(500)` fails with
the `InvalidInput` kind; the code has no range check and reports
`NOT_FOUND` (the same kind it uses for an in-range sura absent from the
corpus). -/
theorem C4_out_of_range_counterexample :
    get_sura corpusA 500 = .error .NOT_FOUND
    ∧ ErrCode.NOT_FOUND ≠ ErrCode.INVALID_INPUT := by decide

/-- C4 amended: `get_sura` performs no 1..114 range validation and has
no `InvalidInput` path; whenever the `sura_info` table, whose rows only
carry in-range numbers, has no row for the requested number — which is
the case for every number outside 1..114 — the handler fails
`NOT_FOUND`. -/
theorem C4_get_sura_not_found (db : DB) (n : Nat)
    (hdb : ∀ r ∈ db.sura_info, 1 ≤ r.sura_number ∧ r.sura_number ≤ 114)
    (hn : n < 1 ∨ 114 < n) :
    get_sura db n = .error .NOT_FOUND := by
  have hfilter : db.sura_info.filter (fun r => r.sura_number == n) = [] := by
    rw [List.filter_eq_nil_iff]
    intro r hr
    have h1 := hdb r hr
    simp only [beq_iff_eq]
    omega
  simp [get_sura, hfilter]

/-- C4 witness: the amended theorem applied to `corpusA` and the
out-of-range number 200. -/
theorem C4_get_sura_not_found_witness :
    get_sura corpusA 200 = .error .NOT_FOUND :=
  C4_get_sura_not_found corpusA 200 (by decide) (Or.inr (by norm_num))

/-- C5: a query shorter than 2 characters after stripping whitespace is
rejected `INVALID_INPUT` in every mode (not returned as an empty
list), and a valid word-mode query that matches no verse succeeds with
the empty list (zero matches is not an error). -/
theorem C5_query_validation :
    (∀ (db : DB) (q : String) (mode : SearchMode) (lim : Int),
        (pyStrip q).length < 2 → search db q mode lim = .error .INVALID_INPUT)
    ∧ (∀ (db : DB) (q : String) (lim : Int),
        2 ≤ (pyStrip q).length →
        db.tanzil_texts.filter (fun r => likeMatch r.text_simple (pyStrip q)) = [] →
        search db q SearchMode.word lim = .ok []) := by
  constructor
  · intro db q mode lim h
    simp only [search]
    rw [if_pos h]
  · intro db q lim h hfil
    rw [search_word_eq db q lim h, hfil]
    simp [applyLimit]

/-- C5 witness: the one-character query "a" is rejected
`INVALID_INPUT`; the matchless query "xyz123notarabic" succeeds with
the empty list, both on `corpusA`. -/
theorem C5_query_validation_witness :
    search corpusA "a" SearchMode.word 50 = .error .INVALID_INPUT
    ∧ search corpusA "xyz123notarabic" SearchMode.word 50 = .ok [] :=
  ⟨C5_query_validation.1 corpusA "a" SearchMode.word 50 (by decide),
   C5_query_validation.2 corpusA "xyz123notarabic" 50 (by decide) (by decide)⟩

/-- C6 counterexample: `corpusC` has a morphology row for 5:5 but no
5:5 verse in the primary table.  The claim says every lookup operation,
`getMorphology` included, reports the verse-not-found failure before
(and without) consulting any secondary table; the code's
`get_morphology` never consults the primary table and happily returns
the secondary-table data for the nonexistent verse. -/
theorem C6_morphology_counterexample :
    corpusC.tanzil_texts.filter (fun r => r.sura == 5 && r.aya == 5) = []
    ∧ get_morphology corpusC 5 5 = .ok [⟨1, "s", "t", "N", "Noun", "rt", "lm", ""⟩] := by decide

/-- C6 amended: `get_verse` decides existence on the primary
`tanzil_texts` table alone and reports `NOT_FOUND` without the
secondary tables influencing that outcome (the statement quantifies
over every database with the same empty primary lookup); but
`get_morphology` consults only `morphology_segments`: it reports
`NOT_FOUND` exactly when that table has no row for the reference, and
returns data whenever it does — even for a reference absent from the
primary table. -/
theorem C6_lookup_not_found :
    (∀ (db : DB) (s v : Nat),
        db.tanzil_texts.filter (fun r => r.sura == s && r.aya == v) = [] →
        get_verse db s v = .error .NOT_FOUND)
    ∧ (∀ (db : DB) (s v : Nat),
        db.morphology_segments.filter (fun r => r.sura == s && r.verse == v) = [] →
        get_morphology db s v = .error .NOT_FOUND)
    ∧ (∀ (db : DB) (s v : Nat),
        db.morphology_segments.filter (fun r => r.sura == s && r.verse == v) ≠ [] →
        ∃ segs, get_morphology db s v = .ok segs ∧ segs ≠ []) := by
  refine ⟨?_, ?_, ?_⟩
  · intro db s v hfil
    simp [get_verse, hfil]
  · intro db s v hfil
    simp [get_morphology, hfil]
  · intro db s v hne
    have hne2 : (List.insertionSort (fun a b => a.word_number ≤ b.word_number)
        (db.morphology_segments.filter (fun r => r.sura == s && r.verse == v))) ≠ [] := by
      intro hnil
      apply hne
      have hlen := (List.perm_insertionSort (fun a b => a.word_number ≤ b.word_number)
        (db.morphology_segments.filter (fun r => r.sura == s && r.verse == v))).length_eq
      rw [hnil] at hlen
      exact List.length_eq_zero.mp hlen.symm
    rcases List.exists_cons_of_ne_nil hne2 with ⟨a, as, hsort⟩
    simp only [get_morphology]
    rw [hsort]
    refine ⟨(a :: as).map (fun r => MorphSegOut.mk r.word_number r.segment_arabic
        r.segment_transliteration r.pos_tag r.pos_description r.root r.lemma_txt r.features),
      ?_, by simp⟩
    simp

/-- C6 witness: on `corpusC`, a missing primary verse gives
`NOT_FOUND` from `get_verse`; a reference with no morphology rows gives
`NOT_FOUND` from `get_morphology`; and the 5:5 morphology rows are
returned although 5:5 has no primary verse. -/
theorem C6_lookup_not_found_witness :
    get_verse corpusC 5 5 = .error .NOT_FOUND
    ∧ get_morphology corpusC 1 1 = .error .NOT_FOUND
    ∧ ∃ segs, get_morphology corpusC 5 5 = .ok segs ∧ segs ≠ [] :=
  ⟨C6_lookup_not_found.1 corpusC 5 5 (by decide),
   C6_lookup_not_found.2.1 corpusC 1 1 (by decide),
   C6_lookup_not_found.2.2 corpusC 5 5 (by decide)⟩

/-- C7: a requested limit above the 500 ceiling is silently clamped to
500 (`min lim 500 = 500`), the call still succeeds for a valid query in
every mode, and the number of returned results never exceeds 500. -/
theorem C7_limit_capped (db : DB) (q : String) (mode : SearchMode) (lim : Int)
    (hlim : 500 < lim) (hq : 2 ≤ (pyStrip q).length) :
    min lim 500 = 500
    ∧ ∃ res, search db q mode lim = .ok res ∧ res.length ≤ 500 := by
  have hmin : min lim 500 = 500 := min_eq_right (le_of_lt hlim)
  have hbound : ∀ (xs : List SearchItem), (applyLimit (min lim 500) xs).length ≤ 500 := by
    intro xs
    rw [hmin]
    simpa using length_applyLimit_le 500 (by norm_num) xs
  refine ⟨hmin, ?_⟩
  cases mode with
  | word => exact ⟨_, search_word_eq db q lim hq, hbound _⟩
  | root => exact ⟨_, search_root_eq db q lim hq, hbound _⟩
  | lemmaMode => exact ⟨_, search_lemmaMode_eq db q lim hq, hbound _⟩

/-- C7 witness: the theorem applied to `corpusA`, word mode, the query
"الله" and the over-ceiling request 501. -/
theorem C7_limit_capped_witness :
    min (501 : Int) 500 = 500
    ∧ ∃ res, search corpusA "الله" SearchMode.word 501 = .ok res ∧ res.length ≤ 500 :=
  C7_limit_capped corpusA "الله" SearchMode.word 501 (by norm_num) (by decide)

/-- C9: for every reference present in the primary table, `get_verse`
succeeds, the returned record's `reference` string (serialized
`"sura:verse"`) parses back to exactly the input pair, and the `sura`
and `verse` fields equal the inputs. -/
theorem C9_get_verse_roundtrip (db : DB) (s v : Nat) (row : VerseRow)
    (h : (db.tanzil_texts.filter (fun r => r.sura == s && r.aya == v)).head? = some row) :
    ∃ rec0, get_verse db s v = .ok rec0
      ∧ parseRef rec0.reference = some (s, v)
      ∧ rec0.sura = s ∧ rec0.verse = v := by
  have hmem : row ∈ db.tanzil_texts.filter (fun r => r.sura == s && r.aya == v) :=
    mem_of_head?_eq _ _ h
  have hp := (List.mem_filter.mp hmem).2
  rw [Bool.and_eq_true, beq_iff_eq, beq_iff_eq] at hp
  unfold get_verse
  rw [h]
  exact ⟨_, rfl, parseRef_serializeRef s v, hp.1, hp.2⟩

/-- C9 witness: the theorem applied to `corpusA` and its verse 1:1. -/
theorem C9_get_verse_roundtrip_witness :
    ∃ rec0, get_verse corpusA 1 1 = .ok rec0
      ∧ parseRef rec0.reference = some (1, 1)
      ∧ rec0.sura = 1 ∧ rec0.verse = 1 :=
  C9_get_verse_roundtrip corpusA 1 1 ⟨1, 1, "بسم الله الرحمن الرحيم", "بِسْمِ اللَّهِ"⟩
    (by decide)

/-- C10: the limit is clamped only from above: any non-positive
requested limit passes through `min lim 500` unchanged; a negative
bound disables truncation entirely (SQLite treats a negative `LIMIT` as
"no limit"), so the full match set is returned and, for every target
size `n`, some corpus makes a negative-limit word search return exactly
`n` results — the response size is unbounded and in particular can
exceed the 500 ceiling. -/
theorem C10_negative_limit_unbounded :
    (∀ lim : Int, lim ≤ 0 → min lim 500 = lim)
    ∧ (∀ lim : Int, lim < 0 → ∀ (db : DB) (res : List SearchItem),
        search db "ab" SearchMode.word lim = .ok res →
        res = (db.tanzil_texts.filter (fun r => likeMatch r.text_simple "ab")).map
          (fun r => SearchItem.verseHit r.sura r.aya r.text_simple))
    ∧ (∀ n : Nat, ∃ (db : DB) (res : List SearchItem),
        search db "ab" SearchMode.word (-1) = .ok res ∧ res.length = n) := by
  have hstrip : pyStrip "ab" = "ab" := by decide
  refine ⟨?_, ?_, ?_⟩
  · intro lim h
    exact min_eq_left (by omega)
  · intro lim hneg db res hres
    rw [search_word_eq db "ab" lim (by decide), hstrip] at hres
    rw [min_eq_left (by omega : lim ≤ 500)] at hres
    unfold applyLimit at hres
    rw [if_pos hneg] at hres
    injection hres with hres
    exact hres.symm
  · intro n
    have hfil : (corpusRep n).tanzil_texts.filter
        (fun r => likeMatch r.text_simple (pyStrip "ab"))
        = List.replicate n ⟨1, 1, "ab", "ab"⟩ := by
      apply List.filter_eq_self.mpr
      intro a ha
      rw [List.eq_of_mem_replicate ha]
      decide
    refine ⟨corpusRep n, _, search_word_eq (corpusRep n) "ab" (-1) (by decide), ?_⟩
    rw [min_eq_left (by norm_num : (-1 : Int) ≤ 500)]
    unfold applyLimit
    rw [if_pos (by norm_num : (-1 : Int) < 0)]
    rw [show (corpusRep n).tanzil_texts.filter
        (fun r => likeMatch r.text_simple (pyStrip "ab"))
        = List.replicate n ⟨1, 1, "ab", "ab"⟩ from hfil]
    rw [List.map_replicate, List.length_replicate]

/-- C10 witness: the pass-through clamp at the concrete request −7,
and a concrete match set of 501 results — above the 500 ceiling —
returned under the negative limit −1. -/
theorem C10_negative_limit_unbounded_witness :
    min (-7 : Int) 500 = -7
    ∧ ∃ (db : DB) (res : List SearchItem),
        search db "ab" SearchMode.word (-1) = .ok res ∧ res.length = 501 :=
  ⟨C10_negative_limit_unbounded.1 (-7) (by norm_num),
   C10_negative_limit_unbounded.2.2 501⟩

end QuranAPI
